import Mathlib

/-!
Verification of the Adafruit_CompositeVideo NTSC video engine
(shallow embedding of `src/Adafruit_CompositeVideo.cpp` /
`src/Adafruit_CompositeVideo.h`).

The embedding models, faithfully to the C source:
* the four quantized voltage levels `NS`, `N_`, `NK`, `NW`;
* the NTSC line / half-line sample patterns and the two vertical-sync
  timing tables `NTSC40x24vsyncOdd`, `NTSC40x24vsyncEven`;
* the mode table `videoSpec` (single NTSC 40x24 entry);
* `drawPixel` (bounds check, GFX rotation, quantization, buffer write),
  with the frame buffer as a function `Nat → Nat` over halfword offsets;
* `clear` (the per-row memcpy loop);
* the DMA descriptor chain built by `Adafruit_NTSC40x24::begin`,
  with machine addresses abstracted into symbolic source/destination
  regions plus an explicit byte offset added to the source base
  (the `SRCADDR += 2*BTCNT` end-of-block adjustment);
* the control flow of `Adafruit_CompositeVideo::begin` /
  `Adafruit_NTSC40x24::begin`, with the external DMA / allocation /
  job-start capabilities as boolean oracles.
-/

set_option maxRecDepth 10000

namespace CompositeVideo

/-! ### Voltage levels (source lines 76-79, `DAC_MAX != 1023` branch) -/

/-- NTSC sync level (`NS = 0`). -/
def NS : Nat := 0

/-- NTSC blank level (`N_ = 45`). -/
def N_ : Nat := 45

/-- NTSC black level (`NK = 60`). -/
def NK : Nat := 60

/-- NTSC white level (`NW = 310`). -/
def NW : Nat := 310

/-! ### Mode specification (source lines 61-68, `videoSpec[]`) -/

/-- One entry of the `videoSpec[]` table. -/
structure VideoSpec where
  timerPeriod : Nat
  rowPixelClocks : Nat
  xOffset : Nat
  numDescriptors : Nat
deriving DecidableEq

/-- The single supported mode, `MODE_NTSC40x24`:
`{60, 50, 9, 436}` in the source. -/
def videoSpec : VideoSpec := ⟨60, 50, 9, 436⟩

/-- `videoSpec[mode].rowPixelClocks` for the one supported mode. -/
def rowPixelClocks : Nat := videoSpec.rowPixelClocks

/-- `videoSpec[mode].xOffset` for the one supported mode. -/
def xOffset : Nat := videoSpec.xOffset

/-- `videoSpec[mode].numDescriptors` for the one supported mode. -/
def numDescriptors : Nat := videoSpec.numDescriptors

/-- Constructor argument `width = 40` of `Adafruit_NTSC40x24` (the GFX
`WIDTH` field). -/
def WIDTH : Int := 40

/-- Constructor argument `height = 24` of `Adafruit_NTSC40x24` (the GFX
`HEIGHT` field). -/
def HEIGHT : Int := 24

/-! ### NTSC line / half-line patterns (source lines 197-210)

Each macro is an explicit comma list in the C source; here each is the
same sample sequence written with `List.replicate` runs whose counts
match the source listing exactly. -/

/-- `NTSC_EQ_HALFLINE25`: 2 sync + 23 blank samples (25 total). -/
def NTSC_EQ_HALFLINE25 : List Nat :=
  List.replicate 2 NS ++ List.replicate 23 N_

/-- `NTSC_SERRATION_HALFLINE25`: 22 sync + 3 blank samples (25 total). -/
def NTSC_SERRATION_HALFLINE25 : List Nat :=
  List.replicate 22 NS ++ List.replicate 3 N_

/-- `NTSC_BLANK_LINE50`: 4 sync + 46 blank samples (50 total). -/
def NTSC_BLANK_LINE50 : List Nat :=
  List.replicate 4 NS ++ List.replicate 46 N_

/-- `NTSC_EMPTY_LINE50`: 4 sync + 5 blank + 40 black + 1 blank (50). -/
def NTSC_EMPTY_LINE50 : List Nat :=
  List.replicate 4 NS ++ List.replicate 5 N_ ++ List.replicate 40 NK ++ [N_]

/-! ### Vertical-sync timing tables (source lines 215-286) -/

/-- `NTSC40x24vsyncOdd[]`: 16 blank lines, 6 equalizing half-lines,
6 serration half-lines, 6 equalizing half-lines, 11 blank lines,
10 further blank lines — in exactly the source's concatenation order. -/
def NTSC40x24vsyncOdd : List Nat :=
  List.flatten (List.replicate 16 NTSC_BLANK_LINE50) ++
  List.flatten (List.replicate 6 NTSC_EQ_HALFLINE25) ++
  List.flatten (List.replicate 6 NTSC_SERRATION_HALFLINE25) ++
  List.flatten (List.replicate 6 NTSC_EQ_HALFLINE25) ++
  List.flatten (List.replicate 11 NTSC_BLANK_LINE50) ++
  List.flatten (List.replicate 10 NTSC_BLANK_LINE50)

/-- The inline line at source lines 263-264 (line 263 of the even field):
4 sync + 21 blank samples (an odd half-line) followed by one
`NTSC_EQ_HALFLINE25` (50 samples total). -/
def NTSC_MIXED_LINE50 : List Nat :=
  List.replicate 4 NS ++ List.replicate 21 N_ ++ NTSC_EQ_HALFLINE25

/-- `NTSC40x24vsyncEven[]`: 16 blank lines, one mixed half-line
(4 sync + 21 blank) followed by one equalizing half-line, 5 equalizing
half-lines, 6 serration half-lines, 5 equalizing half-lines, 11 blank
lines, 1 blank line, 10 further blank lines — in exactly the source's
concatenation order. -/
def NTSC40x24vsyncEven : List Nat :=
  List.flatten (List.replicate 16 NTSC_BLANK_LINE50) ++
  NTSC_MIXED_LINE50 ++
  List.flatten (List.replicate 5 NTSC_EQ_HALFLINE25) ++
  List.flatten (List.replicate 6 NTSC_SERRATION_HALFLINE25) ++
  List.flatten (List.replicate 5 NTSC_EQ_HALFLINE25) ++
  List.flatten (List.replicate 11 NTSC_BLANK_LINE50) ++
  NTSC_BLANK_LINE50 ++
  List.flatten (List.replicate 10 NTSC_BLANK_LINE50)

/-! ### Helper lemmas about the timing tables -/

lemma length_flatten_replicate (n : Nat) (l : List Nat) :
    (List.replicate n l).flatten.length = n * l.length := by
  induction n with
  | zero => simp
  | succ n ih => simp [List.replicate_succ, ih, Nat.succ_mul]; omega

lemma mem_flatten_replicate {s n : Nat} {l : List Nat}
    (h : s ∈ (List.replicate n l).flatten) : s ∈ l := by
  induction n with
  | zero => simp at h
  | succ n ih =>
    rw [List.replicate_succ, List.flatten_cons] at h
    rcases List.mem_append.1 h with h1 | h2
    · exact h1
    · exact ih h2

lemma blank_line_length : NTSC_BLANK_LINE50.length = 50 := by decide

lemma eq_halfline_length : NTSC_EQ_HALFLINE25.length = 25 := by decide

lemma serration_halfline_length : NTSC_SERRATION_HALFLINE25.length = 25 := by
  decide

lemma empty_line_length : NTSC_EMPTY_LINE50.length = 50 := by decide

lemma blank_line_range : ∀ s ∈ NTSC_BLANK_LINE50, NS ≤ s ∧ s ≤ NW := by decide

lemma eq_halfline_range : ∀ s ∈ NTSC_EQ_HALFLINE25, NS ≤ s ∧ s ≤ NW := by
  decide

lemma serration_halfline_range :
    ∀ s ∈ NTSC_SERRATION_HALFLINE25, NS ≤ s ∧ s ≤ NW := by decide

lemma mixed_line_length : NTSC_MIXED_LINE50.length = 50 := by decide

lemma mixed_line_range : ∀ s ∈ NTSC_MIXED_LINE50, NS ≤ s ∧ s ≤ NW := by
  decide

lemma vsyncOdd_length : NTSC40x24vsyncOdd.length = 2300 := by
  simp [NTSC40x24vsyncOdd, length_flatten_replicate, blank_line_length,
    eq_halfline_length, serration_halfline_length]

lemma vsyncEven_length : NTSC40x24vsyncEven.length = 2350 := by
  simp [NTSC40x24vsyncEven, length_flatten_replicate, blank_line_length,
    eq_halfline_length, serration_halfline_length, mixed_line_length]

lemma vsyncOdd_range : ∀ s ∈ NTSC40x24vsyncOdd, NS ≤ s ∧ s ≤ NW := by
  intro s hs
  unfold NTSC40x24vsyncOdd at hs
  simp only [List.mem_append] at hs
  rcases hs with ((((h | h) | h) | h) | h) | h
  all_goals
    first
      | exact blank_line_range _ (mem_flatten_replicate h)
      | exact eq_halfline_range _ (mem_flatten_replicate h)
      | exact serration_halfline_range _ (mem_flatten_replicate h)

lemma vsyncEven_range : ∀ s ∈ NTSC40x24vsyncEven, NS ≤ s ∧ s ≤ NW := by
  intro s hs
  unfold NTSC40x24vsyncEven at hs
  simp only [List.mem_append] at hs
  rcases hs with ((((((h | h) | h) | h) | h) | h) | h) | h
  all_goals
    first
      | exact blank_line_range _ (mem_flatten_replicate h)
      | exact eq_halfline_range _ (mem_flatten_replicate h)
      | exact serration_halfline_range _ (mem_flatten_replicate h)
      | exact blank_line_range _ h
      | exact mixed_line_range _ h

/-! ### Pixel drawing (source lines 165-189, `drawPixel`)

The frame buffer is modelled as a total function `Nat → Nat` from
halfword offsets to sample values.  The GFX base class (an external
dependency, `Adafruit_GFX`) supplies the `rotation` member and the
rotation-dependent logical dimensions `_width` / `_height`: rotations 1
and 3 swap the constructor's width and height, rotations 0 and 2 keep
them.  Those two fields are modelled here by `gfxWidth` / `gfxHeight`. -/

/-- The GFX `_width` field: logical width under the current rotation. -/
def gfxWidth (rotation : Nat) : Int :=
  match rotation with
  | 1 => HEIGHT
  | 3 => HEIGHT
  | _ => WIDTH

/-- The GFX `_height` field: logical height under the current rotation. -/
def gfxHeight (rotation : Nat) : Int :=
  match rotation with
  | 1 => WIDTH
  | 3 => WIDTH
  | _ => HEIGHT

/-- The coordinate remapping performed by the `switch (rotation)` block
of `drawPixel` (source lines 169-185): result is the unrotated `(x, y)`
actually used to index the frame buffer. -/
def rotate (rotation : Nat) (x y : Int) : Int × Int :=
  match rotation with
  | 1 => (WIDTH - 1 - y, x)
  | 2 => (WIDTH - 1 - x, HEIGHT - 1 - y)
  | 3 => (y, HEIGHT - 1 - x)
  | _ => (x, y)

/-- Inverse of `rotate` (used only to state the round-trip property;
not part of the source). -/
def invRotate (rotation : Nat) (x y : Int) : Int × Int :=
  match rotation with
  | 1 => (y, WIDTH - 1 - x)
  | 2 => (WIDTH - 1 - x, HEIGHT - 1 - y)
  | 3 => (HEIGHT - 1 - y, x)
  | _ => (x, y)

/-- The brightness quantization of source line 188:
`NK + (color & 0xFF) * (NW - NK) / 255` (C integer division). -/
def quantize (color : Nat) : Nat :=
  NK + color % 256 * (NW - NK) / 255

/-- `Adafruit_CompositeVideo::drawPixel` (source lines 165-189): clip
against the rotated logical frame, remap the coordinate, then store the
quantized brightness at
`y * videoSpec[mode].rowPixelClocks + x + videoSpec[mode].xOffset`. -/
def drawPixel (rotation : Nat) (fb : Nat → Nat) (x y : Int)
    (color : Nat) : Nat → Nat :=
  if x < 0 ∨ y < 0 ∨ x ≥ gfxWidth rotation ∨ y ≥ gfxHeight rotation then
    fb
  else
    let p := rotate rotation x y
    Function.update fb
      (p.2 * (rowPixelClocks : Int) + p.1 + (xOffset : Int)).toNat
      (quantize color)

/-! ### Frame-buffer clearing (source lines 393-399, `clear`) -/

/-- One `memcpy(&frameBuffer[base], &line, ...)` of a whole line:
offsets `base ≤ n < base + line.length` take the line's samples,
everything else is untouched. -/
def writeRow (fb : Nat → Nat) (base : Nat) (line : List Nat) :
    Nat → Nat :=
  fun n =>
    if base ≤ n ∧ n - base < line.length then line.getD (n - base) 0
    else fb n

/-- The first `k` iterations of the `clear` loop (the source runs the
loop for rows `i = 0 .. 23`). -/
def clearUpTo (k : Nat) (fb : Nat → Nat) : Nat → Nat :=
  (List.range k).foldl
    (fun b i => writeRow b (i * rowPixelClocks) NTSC_EMPTY_LINE50) fb

/-- `Adafruit_NTSC40x24::clear` (source lines 393-399): copy
`NTSC_EMPTY_LINE50` over each of the 24 rows. -/
def clear (fb : Nat → Nat) : Nat → Nat := clearUpTo 24 fb

lemma clearUpTo_apply (k : Nat) (fb : Nat → Nat) (n : Nat) :
    clearUpTo k fb n =
      if n < k * rowPixelClocks then NTSC_EMPTY_LINE50.getD (n % 50) 0
      else fb n := by
  induction k generalizing fb with
  | zero => simp [clearUpTo]
  | succ k ih =>
    have hstep : clearUpTo (k + 1) fb =
        writeRow (clearUpTo k fb) (k * rowPixelClocks) NTSC_EMPTY_LINE50 := by
      unfold clearUpTo
      rw [List.range_succ, List.foldl_append, List.foldl_cons, List.foldl_nil]
    rw [hstep]
    unfold writeRow
    rw [empty_line_length]
    by_cases h1 : k * rowPixelClocks ≤ n ∧ n - k * rowPixelClocks < 50
    · rw [if_pos h1]
      have hr : rowPixelClocks = 50 := rfl
      rw [hr] at h1 ⊢
      have hmod : n % 50 = n - k * 50 := by omega
      rw [if_pos (by omega), hmod]
    · rw [if_neg h1, ih]
      have hr : rowPixelClocks = 50 := rfl
      rw [hr] at h1 ⊢
      by_cases h2 : n < k * 50
      · rw [if_pos h2, if_pos (by omega)]
      · rw [if_neg h2, if_neg (by omega)]

lemma clear_apply (fb : Nat → Nat) (n : Nat) :
    clear fb n =
      if n < 1200 then NTSC_EMPTY_LINE50.getD (n % 50) 0 else fb n := by
  rw [clear, clearUpTo_apply]
  norm_num [rowPixelClocks, videoSpec]

/-! ### DMA descriptor chain (source lines 313-373,
`Adafruit_NTSC40x24::begin`)

Machine addresses are abstracted: a descriptor's source is a symbolic
region (`Src`), and the `SRCADDR += 2 * BTCNT` adjustment applied to
source-incrementing descriptors (source lines 365-366) is recorded as
`srcAdjust`, the number of bytes added to the region's base address.
The destination is either the DAC data register or the `vBlank` field
latch.  `next` holds the index of the linked descriptor (the source
stores `&descriptor[i+1]`, rewired to `&descriptor[0]` for the last
entry).  The always-constant control bits EVOSEL (output disable),
BLOCKACT (no action), STEPSEL (destination) and STEPSIZE (1) are not
modelled; no claim mentions them. -/

/-- Symbolic DMA source region: one of the two timing tables, one frame
buffer row (by row index), or one of the 1-byte field-marker constants
`vBlank1 = 1` / `vBlank2 = 2` (source line 292), carried by value. -/
inductive Src where
  | vsyncOdd : Src
  | vsyncEven : Src
  | row : Nat → Src
  | fieldConst : Nat → Src
deriving DecidableEq

/-- Symbolic DMA destination: DAC data register or the `vBlank` latch. -/
inductive Dst where
  | dacData : Dst
  | fieldLatch : Dst
deriving DecidableEq

/-- DMA beat size: 16-bit halfword or 8-bit byte. -/
inductive BeatSize where
  | hword : BeatSize
  | byte : BeatSize
deriving DecidableEq

/-- One DMA transfer descriptor (the modelled fields of
`DmacDescriptor`). -/
structure Descriptor where
  valid : Bool
  beatSize : BeatSize
  srcinc : Bool
  dstinc : Bool
  src : Src
  srcAdjust : Nat
  btcnt : Nat
  dst : Dst
  next : Nat
deriving DecidableEq

/-- First part of the loop body of the descriptor-filling `for` loop
(source lines 315-364) for index `i`: the common setup followed by the
six-way branch on `i`. -/
def buildDescriptorCore (i : Nat) : Descriptor :=
  let base : Descriptor :=
    { valid := true, beatSize := .hword, srcinc := true, dstinc := false,
      src := .vsyncOdd, srcAdjust := 0, btcnt := 0, dst := .dacData,
      next := i + 1 }
  if i = 0 then
    { base with src := .vsyncOdd, btcnt := NTSC40x24vsyncOdd.length }
  else if i ≤ 216 then
    { base with src := .row ((i - 1) / 9), btcnt := rowPixelClocks }
  else if i = 217 then
    { base with beatSize := .byte, srcinc := false, src := .fieldConst 1,
                btcnt := 1, dst := .fieldLatch }
  else if i = 218 then
    { base with src := .vsyncEven, btcnt := NTSC40x24vsyncEven.length }
  else if i ≤ 434 then
    { base with src := .row ((i - 219) / 9), btcnt := rowPixelClocks }
  else
    { base with beatSize := .byte, srcinc := false, src := .fieldConst 2,
                btcnt := 1, dst := .fieldLatch }

/-- Full loop body: the branch above followed by the end-of-block
source-address adjustment `if (SRCINC) SRCADDR += 2 * BTCNT` of source
lines 365-366. -/
def buildDescriptor (i : Nat) : Descriptor :=
  let d := buildDescriptorCore i
  if d.srcinc then { d with srcAdjust := 2 * d.btcnt } else d

/-- The full chain: the loop over all `numDescriptors` indices followed
by the rewiring of the last descriptor's link to descriptor 0 (source
lines 372-373). -/
def descriptorChain : List Descriptor :=
  ((List.range numDescriptors).map buildDescriptor).set
    (numDescriptors - 1)
    { buildDescriptor (numDescriptors - 1) with next := 0 }

/-- Placeholder used as `List.getD` fallback; never reached for
in-range indices. -/
def dummyDescriptor : Descriptor :=
  { valid := false, beatSize := .hword, srcinc := false, dstinc := false,
    src := .vsyncOdd, srcAdjust := 0, btcnt := 0, dst := .dacData,
    next := 0 }

/-- Descriptor at index `i` of the built chain. -/
def chainDesc (i : Nat) : Descriptor := descriptorChain.getD i dummyDescriptor

lemma descriptorChain_length : descriptorChain.length = 436 := by
  simp [descriptorChain, numDescriptors, videoSpec]

lemma chainDesc_eq_of_ne_last (i : Nat) (h : i < 436) (hne : i ≠ 435) :
    chainDesc i = buildDescriptor i := by
  have hlen : i < descriptorChain.length := by
    rw [descriptorChain_length]; exact h
  rw [chainDesc, descriptorChain.getD_eq_getElem dummyDescriptor hlen]
  unfold descriptorChain
  have h436 : numDescriptors = 436 := rfl
  simp only [h436]
  rw [List.getElem_set_ne (by omega)]
  simp [h]

lemma chainDesc_last :
    chainDesc 435 = { buildDescriptor 435 with next := 0 } := by
  have hlen : (435 : Nat) < descriptorChain.length := by
    rw [descriptorChain_length]; omega
  rw [chainDesc, descriptorChain.getD_eq_getElem dummyDescriptor hlen]
  unfold descriptorChain
  have h436 : numDescriptors = 436 := rfl
  simp only [h436]
  rw [List.getElem_set_self]

/-! ### `begin()` control flow (source lines 93-161 and 303-391)

The external capabilities consumed by `begin` — the DMA channel
allocator (`dma.allocate()`), the `memalign` buffer allocation, and the
DMA job start (`dma.startJob()`) — live outside this repository, so
their outcomes are boolean oracles in `BeginEnv`.  The observable
engine state is: whether `descriptor` is non-NULL (`initialized`, the
guard of the `if (descriptor) return true;` re-entry check), whether a
transfer job is running (`jobStarted`), and the frame buffer.  Timer,
clock and DAC register programming have no software-visible state and
are not modelled. -/

/-- Outcomes of the external capability calls made by `begin`. -/
structure BeginEnv where
  dmaAllocOk : Bool
  memalignOk : Bool
  startJobOk : Bool
deriving DecidableEq

/-- Software-visible engine state. -/
structure EngineState where
  initialized : Bool
  jobStarted : Bool
  fb : Nat → Nat

/-- `Adafruit_CompositeVideo::begin` (source lines 93-161): re-entry
returns true at once; otherwise DMA channel allocation and the big
`memalign` must both succeed before `descriptor` is set.  No job is
started here. -/
def compositeVideo_begin (s : EngineState) (env : BeginEnv) :
    Bool × EngineState :=
  if s.initialized then (true, s)
  else if env.dmaAllocOk = false then (false, s)
  else if env.memalignOk = false then (false, s)
  else (true, { s with initialized := true })

/-- `Adafruit_NTSC40x24::begin` (source lines 303-391): run the parent
`begin`; on success (re)build the descriptor table (a pure constant in
this model, `descriptorChain`), call `clear()` on the frame buffer, and
return whether `dma.startJob()` succeeded. -/
def ntsc40x24_begin (s : EngineState) (env : BeginEnv) :
    Bool × EngineState :=
  match compositeVideo_begin s env with
  | (false, s1) => (false, s1)
  | (true, s1) =>
    let s2 := { s1 with fb := clear s1.fb }
    if env.startJobOk then (true, { s2 with jobStarted := true })
    else (false, s2)

/-! ### Auxiliary facts -/

lemma rowPixelClocks_eq : rowPixelClocks = 50 := rfl

lemma rotate_zero (x y : Int) : rotate 0 x y = (x, y) := rfl

lemma rotate_one (x y : Int) : rotate 1 x y = (WIDTH - 1 - y, x) := rfl

lemma rotate_two (x y : Int) :
    rotate 2 x y = (WIDTH - 1 - x, HEIGHT - 1 - y) := rfl

lemma rotate_three (x y : Int) : rotate 3 x y = (y, HEIGHT - 1 - x) := rfl

lemma invRotate_zero (x y : Int) : invRotate 0 x y = (x, y) := rfl

lemma invRotate_one (x y : Int) :
    invRotate 1 x y = (y, WIDTH - 1 - x) := rfl

lemma invRotate_two (x y : Int) :
    invRotate 2 x y = (WIDTH - 1 - x, HEIGHT - 1 - y) := rfl

lemma invRotate_three (x y : Int) :
    invRotate 3 x y = (HEIGHT - 1 - y, x) := rfl

lemma quantize_le_NW (c : Nat) : quantize c ≤ NW := by
  unfold quantize NK NW
  have h : c % 256 ≤ 255 := by omega
  calc 60 + c % 256 * (310 - 60) / 255 ≤ 60 + 255 * (310 - 60) / 255 := by
        apply Nat.add_le_add_left
        apply Nat.div_le_div_right
        exact Nat.mul_le_mul_right _ h
    _ = 310 := by norm_num

lemma NK_le_quantize (c : Nat) : NK ≤ quantize c := Nat.le_add_right _ _

lemma empty_line_getD_le (j : Nat) : NTSC_EMPTY_LINE50.getD j 0 ≤ NW := by
  by_cases h : j < 50
  · revert h
    revert j
    decide
  · rw [List.getD_eq_default]
    · exact Nat.zero_le _
    · rw [empty_line_length]; omega

/-! ### Claim theorems -/

/-- C1: the odd-field timing table is exactly 16 blank lines (each 4
sync + 46 blank samples, 50 total), then 6 equalizing, 6 serration and
6 equalizing half-lines (25 samples each), then 11 + 10 blank lines;
the even-field table is exactly 16 blank lines, one 50-sample line of
4 sync + 21 blank followed by one equalizing half-line, then 5
equalizing, 6 serration and 5 equalizing half-lines, then 11 + 1 + 10
blank lines; every sample of both tables lies in `[NS, NW]`, and the
totals are 2300 (odd) and 2350 (even) samples. -/
theorem C1_timing_tables :
    NTSC40x24vsyncOdd =
      List.flatten (List.replicate 16 NTSC_BLANK_LINE50) ++
      List.flatten (List.replicate 6 NTSC_EQ_HALFLINE25) ++
      List.flatten (List.replicate 6 NTSC_SERRATION_HALFLINE25) ++
      List.flatten (List.replicate 6 NTSC_EQ_HALFLINE25) ++
      List.flatten (List.replicate 11 NTSC_BLANK_LINE50) ++
      List.flatten (List.replicate 10 NTSC_BLANK_LINE50) ∧
    NTSC40x24vsyncEven =
      List.flatten (List.replicate 16 NTSC_BLANK_LINE50) ++
      (List.replicate 4 NS ++ List.replicate 21 N_ ++ NTSC_EQ_HALFLINE25) ++
      List.flatten (List.replicate 5 NTSC_EQ_HALFLINE25) ++
      List.flatten (List.replicate 6 NTSC_SERRATION_HALFLINE25) ++
      List.flatten (List.replicate 5 NTSC_EQ_HALFLINE25) ++
      List.flatten (List.replicate 11 NTSC_BLANK_LINE50) ++
      NTSC_BLANK_LINE50 ++
      List.flatten (List.replicate 10 NTSC_BLANK_LINE50) ∧
    NTSC_BLANK_LINE50 = List.replicate 4 NS ++ List.replicate 46 N_ ∧
    NTSC_BLANK_LINE50.length = 50 ∧
    NTSC_EQ_HALFLINE25.length = 25 ∧
    NTSC_SERRATION_HALFLINE25.length = 25 ∧
    NTSC40x24vsyncOdd.length = 2300 ∧
    NTSC40x24vsyncEven.length = 2350 ∧
    (∀ s ∈ NTSC40x24vsyncOdd, NS ≤ s ∧ s ≤ NW) ∧
    (∀ s ∈ NTSC40x24vsyncEven, NS ≤ s ∧ s ≤ NW) :=
  ⟨rfl, rfl, rfl, blank_line_length, eq_halfline_length,
   serration_halfline_length, vsyncOdd_length, vsyncEven_length,
   vsyncOdd_range, vsyncEven_range⟩

/-- Concrete instance of the membership parts of `C1_timing_tables`:
the first sample of each table is in range. -/
theorem C1_timing_tables_witness :
    (NS ≤ 0 ∧ (0 : Nat) ≤ NW) ∧ (NS ≤ 0 ∧ (0 : Nat) ≤ NW) :=
  ⟨C1_timing_tables.2.2.2.2.2.2.2.2.1 0 (by decide),
   C1_timing_tables.2.2.2.2.2.2.2.2.2 0 (by decide)⟩

/-- C4: the rotation applied by `drawPixel` is the identity for
rotation 0, `(x,y) to (WIDTH-1-y, x)` for rotation 1 (90 degrees),
`(x,y) to (WIDTH-1-x, HEIGHT-1-y)` for rotation 2 (180 degrees), and
`(x,y) to (y, HEIGHT-1-x)` for rotation 3 (270 degrees); and for each
of the four rotation values, composing the forward mapping with its
inverse returns the original in-bounds coordinate. -/
theorem C4_rotation_mappings (x y : Int) :
    (rotate 0 x y = (x, y) ∧
     rotate 1 x y = (WIDTH - 1 - y, x) ∧
     rotate 2 x y = (WIDTH - 1 - x, HEIGHT - 1 - y) ∧
     rotate 3 x y = (y, HEIGHT - 1 - x)) ∧
    (∀ r, r < 4 → 0 ≤ x → 0 ≤ y → x < gfxWidth r → y < gfxHeight r →
      invRotate r (rotate r x y).1 (rotate r x y).2 = (x, y)) := by
  constructor
  · exact ⟨rfl, rfl, rfl, rfl⟩
  · intro r hr hx hy hxw hyh
    interval_cases r
    · simp only [rotate_zero, invRotate_zero]
    · simp only [rotate_one, invRotate_one, Prod.mk.injEq, WIDTH, true_and]
      omega
    · simp only [rotate_two, invRotate_two, Prod.mk.injEq, WIDTH, HEIGHT]
      omega
    · simp only [rotate_three, invRotate_three, Prod.mk.injEq, WIDTH, HEIGHT,
        and_true]
      omega

/-- Concrete instance of the round-trip part of `C4_rotation_mappings`
at rotation 1, coordinate (5, 7). -/
theorem C4_rotation_mappings_witness :
    invRotate 1 (rotate 1 5 7).1 (rotate 1 5 7).2 = (5, 7) :=
  (C4_rotation_mappings 5 7).2 1 (by decide) (by decide) (by decide)
    (by decide) (by decide)

/-- C6: for every out-of-bounds coordinate (negative, or at least the
rotated logical width/height), `drawPixel` returns the frame buffer
unchanged, for every brightness. -/
theorem C6_out_of_bounds_noop (r : Nat) (fb : Nat → Nat) (x y : Int)
    (c : Nat)
    (h : x < 0 ∨ y < 0 ∨ x ≥ gfxWidth r ∨ y ≥ gfxHeight r) :
    drawPixel r fb x y c = fb := by
  unfold drawPixel
  rw [if_pos h]

/-- Concrete instance of `C6_out_of_bounds_noop` at (-1, 0). -/
theorem C6_out_of_bounds_noop_witness :
    drawPixel 0 (fun _ => 7) (-1) 0 99 = (fun _ => 7) :=
  C6_out_of_bounds_noop 0 (fun _ => 7) (-1) 0 99 (by decide)

/-- C5: `clear` overwrites each of the 24 rows with the 50-sample
pattern 4 sync + 5 blank + 40 black + 1 blank (and only depends on the
buffer, not on any rotation state), and clearing twice equals clearing
once. -/
theorem C5_clear_pattern (fb : Nat → Nat) :
    (∀ r j, r < 24 → j < 50 →
      clear fb (r * rowPixelClocks + j) = NTSC_EMPTY_LINE50.getD j 0) ∧
    NTSC_EMPTY_LINE50 =
      List.replicate 4 NS ++ List.replicate 5 N_ ++
      List.replicate 40 NK ++ [N_] ∧
    NTSC_EMPTY_LINE50.length = rowPixelClocks ∧
    clear (clear fb) = clear fb := by
  refine ⟨?_, rfl, empty_line_length, ?_⟩
  · intro r j hr hj
    rw [clear_apply, rowPixelClocks_eq]
    have hmod : (r * 50 + j) % 50 = j := by omega
    rw [if_pos (by omega), hmod]
  · funext n
    by_cases h : n < 1200
    · rw [clear_apply, clear_apply, if_pos h, if_pos h]
    · rw [clear_apply, if_neg h, clear_apply]

/-- Concrete instance of `C5_clear_pattern`: row 0, column 9 of a
cleared all-zero buffer holds the black level. -/
theorem C5_clear_pattern_witness :
    clear (fun _ => 0) (0 * rowPixelClocks + 9) =
      NTSC_EMPTY_LINE50.getD 9 0 :=
  (C5_clear_pattern (fun _ => 0)).1 0 9 (by decide) (by decide)

/-- C3: for every in-bounds coordinate and brightness in [0, 255],
`drawPixel` writes `NK + brightness * (NW - NK) / 255` (truncating
division) at buffer offset `y' * rowPixelClocks + xOffset + x'` where
`(x', y')` is the rotated coordinate, leaving all other offsets
untouched; in particular `setPixel(0, 0, 255)` at rotation 0 makes the
sample at offset `xOffset` equal `NW`. -/
theorem C3_setPixel_write (r : Nat) (fb : Nat → Nat) (x y : Int)
    (c : Nat) (hx : 0 ≤ x) (hy : 0 ≤ y) (hxw : x < gfxWidth r)
    (hyh : y < gfxHeight r) (hc : c ≤ 255) :
    drawPixel r fb x y c =
      Function.update fb
        ((rotate r x y).2 * (rowPixelClocks : Int) + (xOffset : Int) +
          (rotate r x y).1).toNat
        (NK + c * (NW - NK) / 255) ∧
    (∀ g : Nat → Nat, drawPixel 0 g 0 0 255 xOffset = NW) := by
  constructor
  · unfold drawPixel
    rw [if_neg (by omega)]
    show Function.update fb
        (((rotate r x y).2 * (rowPixelClocks : Int) + (rotate r x y).1 +
          (xOffset : Int)).toNat) (quantize c) = _
    have hidx : (rotate r x y).2 * (rowPixelClocks : Int) +
        (rotate r x y).1 + (xOffset : Int) =
        (rotate r x y).2 * (rowPixelClocks : Int) + (xOffset : Int) +
          (rotate r x y).1 := add_right_comm _ _ _
    rw [hidx]
    have hq : quantize c = NK + c * (NW - NK) / 255 := by
      unfold quantize
      rw [Nat.mod_eq_of_lt (by omega)]
    rw [hq]
  · intro g
    show Function.update g 9 (quantize 255) 9 = NW
    rw [Function.update_same]
    decide

/-- Concrete instance of `C3_setPixel_write`: pixel (0, 0) at
brightness 255 and rotation 0. -/
theorem C3_setPixel_write_witness :
    drawPixel 0 (fun _ => 0) 0 0 255 =
      Function.update (fun _ => 0)
        ((rotate 0 0 0).2 * (rowPixelClocks : Int) + (xOffset : Int) +
          (rotate 0 0 0).1).toNat
        (NK + 255 * (NW - NK) / 255) :=
  (C3_setPixel_write 0 (fun _ => 0) 0 0 255 (by decide) (by decide)
    (by decide) (by decide) (by decide)).1

/-- C9: the sample written by `drawPixel` depends only on the low 8
bits of the 16-bit color argument, and the quantized value always lies
inside `[NK, NW]`, so `drawPixel` can never store a sync- or
blank-level sample. -/
theorem C9_color_masked (r : Nat) (fb : Nat → Nat) (x y : Int)
    (c : Nat) (_hc : c < 65536) :
    drawPixel r fb x y c = drawPixel r fb x y (c % 256) ∧
    NK ≤ quantize c ∧ quantize c ≤ NW := by
  refine ⟨?_, NK_le_quantize c, quantize_le_NW c⟩
  have hq : quantize (c % 256) = quantize c := by
    unfold quantize
    have h : c % 256 % 256 = c % 256 := by omega
    rw [h]
  unfold drawPixel
  by_cases h : x < 0 ∨ y < 0 ∨ x ≥ gfxWidth r ∨ y ≥ gfxHeight r
  · rw [if_pos h, if_pos h]
  · rw [if_neg h, if_neg h]
    simp only [hq]

/-- Concrete instance of `C9_color_masked` at color 310 (low byte 54). -/
theorem C9_color_masked_witness :
    drawPixel 0 (fun _ => 0) 0 0 310 =
      drawPixel 0 (fun _ => 0) 0 0 (310 % 256) :=
  (C9_color_masked 0 (fun _ => 0) 0 0 310 (by decide)).1

/-- C8: the levels are strictly ordered `NS < N_ < NK < NW`, and for a
frame buffer whose every element lies in `[NS, NW]`, both `drawPixel`
(with any arguments) and `clear` keep every element in `[NS, NW]`. -/
theorem C8_range_invariant :
    NS < N_ ∧ N_ < NK ∧ NK < NW ∧
    (∀ fb : Nat → Nat, (∀ n, NS ≤ fb n ∧ fb n ≤ NW) →
      (∀ r x y c n,
        NS ≤ drawPixel r fb x y c n ∧ drawPixel r fb x y c n ≤ NW) ∧
      (∀ n, NS ≤ clear fb n ∧ clear fb n ≤ NW)) := by
  refine ⟨by decide, by decide, by decide, ?_⟩
  intro fb hfb
  constructor
  · intro r x y c n
    unfold drawPixel
    by_cases hb : x < 0 ∨ y < 0 ∨ x ≥ gfxWidth r ∨ y ≥ gfxHeight r
    · rw [if_pos hb]
      exact hfb n
    · rw [if_neg hb]
      show NS ≤ Function.update fb
          (((rotate r x y).2 * (rowPixelClocks : Int) + (rotate r x y).1 +
            (xOffset : Int)).toNat) (quantize c) n ∧ _
      rcases eq_or_ne n (((rotate r x y).2 * (rowPixelClocks : Int) +
          (rotate r x y).1 + (xOffset : Int)).toNat) with h | h
      · rw [h, Function.update_same]
        exact ⟨Nat.zero_le _, quantize_le_NW c⟩
      · rw [Function.update_noteq h]
        exact hfb n
  · intro n
    rw [clear_apply]
    by_cases h : n < 1200
    · rw [if_pos h]
      exact ⟨Nat.zero_le _, empty_line_getD_le _⟩
    · rw [if_neg h]
      exact hfb n

/-- Concrete instance of `C8_range_invariant`: the all-sync buffer
stays in range at offset 9 after `drawPixel 0 _ 0 0 255`. -/
theorem C8_range_invariant_witness :
    NS ≤ drawPixel 0 (fun _ => 0) 0 0 255 9 ∧
    drawPixel 0 (fun _ => 0) 0 0 255 9 ≤ NW :=
  (C8_range_invariant.2.2.2 (fun _ => 0)
    (fun _ => ⟨Nat.le_refl 0, Nat.zero_le NW⟩)).1 0 0 0 255 9

/-! ### Descriptor-chain branch computations -/

lemma buildDescriptor_fields (i : Nat) :
    (buildDescriptor i).beatSize = (buildDescriptorCore i).beatSize ∧
    (buildDescriptor i).srcinc = (buildDescriptorCore i).srcinc ∧
    (buildDescriptor i).src = (buildDescriptorCore i).src ∧
    (buildDescriptor i).btcnt = (buildDescriptorCore i).btcnt ∧
    (buildDescriptor i).dst = (buildDescriptorCore i).dst ∧
    (buildDescriptor i).next = (buildDescriptorCore i).next := by
  cases h : (buildDescriptorCore i).srcinc <;>
    simp [buildDescriptor, h]

lemma buildDescriptor_srcAdjust_inc (i : Nat)
    (h : (buildDescriptor i).srcinc = true) :
    (buildDescriptor i).srcAdjust = 2 * (buildDescriptor i).btcnt := by
  cases hc : (buildDescriptorCore i).srcinc
  · rw [(buildDescriptor_fields i).2.1, hc] at h
    exact nomatch h
  · simp [buildDescriptor, hc]

lemma buildDescriptor_of_noinc (i : Nat)
    (h : (buildDescriptorCore i).srcinc = false) :
    buildDescriptor i = buildDescriptorCore i := by
  simp [buildDescriptor, h]

lemma core_zero :
    buildDescriptorCore 0 =
      { valid := true, beatSize := .hword, srcinc := true, dstinc := false,
        src := .vsyncOdd, srcAdjust := 0,
        btcnt := NTSC40x24vsyncOdd.length, dst := .dacData, next := 1 } :=
  rfl

lemma core_oddRow (i : Nat) (h1 : 1 ≤ i) (h2 : i ≤ 216) :
    buildDescriptorCore i =
      { valid := true, beatSize := .hword, srcinc := true, dstinc := false,
        src := .row ((i - 1) / 9), srcAdjust := 0,
        btcnt := rowPixelClocks, dst := .dacData, next := i + 1 } := by
  simp only [buildDescriptorCore]
  rw [if_neg (by omega), if_pos (by omega)]

lemma core_217 :
    buildDescriptorCore 217 =
      { valid := true, beatSize := .byte, srcinc := false, dstinc := false,
        src := .fieldConst 1, srcAdjust := 0, btcnt := 1,
        dst := .fieldLatch, next := 218 } :=
  rfl

lemma core_218 :
    buildDescriptorCore 218 =
      { valid := true, beatSize := .hword, srcinc := true, dstinc := false,
        src := .vsyncEven, srcAdjust := 0,
        btcnt := NTSC40x24vsyncEven.length, dst := .dacData,
        next := 219 } :=
  rfl

lemma core_evenRow (i : Nat) (h1 : 219 ≤ i) (h2 : i ≤ 434) :
    buildDescriptorCore i =
      { valid := true, beatSize := .hword, srcinc := true, dstinc := false,
        src := .row ((i - 219) / 9), srcAdjust := 0,
        btcnt := rowPixelClocks, dst := .dacData, next := i + 1 } := by
  simp only [buildDescriptorCore]
  rw [if_neg (by omega), if_neg (by omega), if_neg (by omega),
    if_neg (by omega), if_pos (by omega)]

lemma core_435 :
    buildDescriptorCore 435 =
      { valid := true, beatSize := .byte, srcinc := false, dstinc := false,
        src := .fieldConst 2, srcAdjust := 0, btcnt := 1,
        dst := .fieldLatch, next := 436 } :=
  rfl

lemma chainDesc_217_eq : chainDesc 217 = buildDescriptorCore 217 := by
  rw [chainDesc_eq_of_ne_last 217 (by omega) (by omega),
    buildDescriptor_of_noinc 217 rfl]

lemma chainDesc_435_eq :
    chainDesc 435 = { buildDescriptorCore 435 with next := 0 } := by
  rw [chainDesc_last, buildDescriptor_of_noinc 435 rfl]

/-- C2: the chain built by `Adafruit_NTSC40x24::begin` has exactly
`numDescriptors = 436` entries; the last descriptor links back to
descriptor 0; index 0 sources the odd timing table with its full
sample count, indices 1..216 source frame-buffer row `(i-1)/9` with
length `rowPixelClocks`, index 217 is a 1-byte transfer of the
constant 1 to the field latch, index 218 sources the even timing
table, indices 219..434 source row `(i-219)/9`, and index 435 is a
1-byte transfer of the constant 2 to the field latch; with
`repeat = (436-2)/(2*24) = 9`, descriptor `1 + 9r + k` (and
`219 + 9r + k`) sources row `r` for every `k < 9`, i.e. each row is
replayed 9 times per field. -/
theorem C2_chain_layout :
    descriptorChain.length = numDescriptors ∧
    numDescriptors = 436 ∧
    (chainDesc 435).next = 0 ∧
    (chainDesc 0).src = Src.vsyncOdd ∧
    (chainDesc 0).btcnt = NTSC40x24vsyncOdd.length ∧
    (∀ i, 1 ≤ i → i ≤ 216 →
      (chainDesc i).src = Src.row ((i - 1) / 9) ∧
      (chainDesc i).btcnt = rowPixelClocks) ∧
    (chainDesc 217).beatSize = BeatSize.byte ∧
    (chainDesc 217).btcnt = 1 ∧
    (chainDesc 217).src = Src.fieldConst 1 ∧
    (chainDesc 217).dst = Dst.fieldLatch ∧
    (chainDesc 218).src = Src.vsyncEven ∧
    (chainDesc 218).btcnt = NTSC40x24vsyncEven.length ∧
    (∀ i, 219 ≤ i → i ≤ 434 →
      (chainDesc i).src = Src.row ((i - 219) / 9) ∧
      (chainDesc i).btcnt = rowPixelClocks) ∧
    (chainDesc 435).beatSize = BeatSize.byte ∧
    (chainDesc 435).btcnt = 1 ∧
    (chainDesc 435).src = Src.fieldConst 2 ∧
    (chainDesc 435).dst = Dst.fieldLatch ∧
    (numDescriptors - 2) / (2 * 24) = 9 ∧
    (∀ r k, r < 24 → k < 9 →
      (chainDesc (1 + 9 * r + k)).src = Src.row r ∧
      (chainDesc (219 + 9 * r + k)).src = Src.row r) := by
  have h0 : chainDesc 0 = buildDescriptor 0 :=
    chainDesc_eq_of_ne_last 0 (by omega) (by omega)
  have h218 : chainDesc 218 = buildDescriptor 218 :=
    chainDesc_eq_of_ne_last 218 (by omega) (by omega)
  have hrow1 : ∀ i, 1 ≤ i → i ≤ 216 →
      (chainDesc i).src = Src.row ((i - 1) / 9) ∧
      (chainDesc i).btcnt = rowPixelClocks := by
    intro i hi1 hi2
    have hc := chainDesc_eq_of_ne_last i (by omega) (by omega)
    constructor
    · rw [hc, (buildDescriptor_fields i).2.2.1, core_oddRow i hi1 hi2]
    · rw [hc, (buildDescriptor_fields i).2.2.2.1, core_oddRow i hi1 hi2]
  have hrow2 : ∀ i, 219 ≤ i → i ≤ 434 →
      (chainDesc i).src = Src.row ((i - 219) / 9) ∧
      (chainDesc i).btcnt = rowPixelClocks := by
    intro i hi1 hi2
    have hc := chainDesc_eq_of_ne_last i (by omega) (by omega)
    constructor
    · rw [hc, (buildDescriptor_fields i).2.2.1, core_evenRow i hi1 hi2]
    · rw [hc, (buildDescriptor_fields i).2.2.2.1, core_evenRow i hi1 hi2]
  refine ⟨descriptorChain_length, rfl, ?_, ?_, ?_, hrow1, ?_, ?_, ?_, ?_,
    ?_, ?_, hrow2, ?_, ?_, ?_, ?_, by norm_num [numDescriptors, videoSpec],
    ?_⟩
  · rw [chainDesc_435_eq]
  · rw [h0, (buildDescriptor_fields 0).2.2.1, core_zero]
  · rw [h0, (buildDescriptor_fields 0).2.2.2.1, core_zero]
  · rw [chainDesc_217_eq, core_217]
  · rw [chainDesc_217_eq, core_217]
  · rw [chainDesc_217_eq, core_217]
  · rw [chainDesc_217_eq, core_217]
  · rw [h218, (buildDescriptor_fields 218).2.2.1, core_218]
  · rw [h218, (buildDescriptor_fields 218).2.2.2.1, core_218]
  · rw [chainDesc_435_eq, core_435]
  · rw [chainDesc_435_eq, core_435]
  · rw [chainDesc_435_eq, core_435]
  · rw [chainDesc_435_eq, core_435]
  · intro r k hr hk
    constructor
    · rw [(hrow1 (1 + 9 * r + k) (by omega) (by omega)).1]
      congr 1
      omega
    · rw [(hrow2 (219 + 9 * r + k) (by omega) (by omega)).1]
      congr 1
      omega

/-- Concrete instance of the quantified parts of `C2_chain_layout`:
descriptor 10 sources row 1 with length `rowPixelClocks`, and the
first descriptor of row 0's replay group in each field sources
row 0. -/
theorem C2_chain_layout_witness :
    ((chainDesc 10).src = Src.row ((10 - 1) / 9) ∧
      (chainDesc 10).btcnt = rowPixelClocks) ∧
    (chainDesc (1 + 9 * 0 + 0)).src = Src.row 0 ∧
    (chainDesc (219 + 9 * 0 + 0)).src = Src.row 0 :=
  ⟨C2_chain_layout.2.2.2.2.2.1 10 (by omega) (by omega),
   C2_chain_layout.2.2.2.2.2.2.2.2.2.2.2.2.2.2.2.2.2.2
     0 0 (by omega) (by omega)⟩

/-- C10: every descriptor with the source-increment flag set (all
video-data descriptors) stores as source address the region base plus
2 bytes times its beat count, while the two field-latch descriptors
(217 and 435) have source increment off, an unadjusted source
address, 8-bit beat size, and beat count 1. -/
theorem C10_src_address_adjust :
    ∀ i, i < 436 →
      ((chainDesc i).srcinc = true →
        (chainDesc i).srcAdjust = 2 * (chainDesc i).btcnt) ∧
      (i ≠ 217 → i ≠ 435 → (chainDesc i).srcinc = true) ∧
      ((i = 217 ∨ i = 435) →
        (chainDesc i).srcinc = false ∧ (chainDesc i).srcAdjust = 0 ∧
        (chainDesc i).beatSize = BeatSize.byte ∧
        (chainDesc i).btcnt = 1) := by
  intro i hi
  refine ⟨fun h => ?_, fun h217 h435 => ?_, fun h => ?_⟩
  · rcases Nat.lt_or_ge i 435 with hlt | hge
    · rw [chainDesc_eq_of_ne_last i (by omega) (by omega)] at h ⊢
      exact buildDescriptor_srcAdjust_inc i h
    · have h435 : i = 435 := by omega
      subst h435
      rw [chainDesc_435_eq, core_435] at h
      simp at h
  · rw [chainDesc_eq_of_ne_last i (by omega) h435,
      (buildDescriptor_fields i).2.1]
    rcases Nat.eq_zero_or_pos i with hz | hpos
    · subst hz
      rw [core_zero]
    · rcases Nat.lt_or_ge i 217 with hr1 | hup
      · rw [core_oddRow i (by omega) (by omega)]
      · have h218le : 218 ≤ i := by omega
        rcases Nat.eq_or_lt_of_le h218le with h218 | h219le
        · rw [← h218, core_218]
        · rw [core_evenRow i (by omega) (by omega)]
  · rcases h with h | h
    · subst h
      rw [chainDesc_217_eq, core_217]
      exact ⟨rfl, rfl, rfl, rfl⟩
    · subst h
      rw [chainDesc_435_eq, core_435]
      exact ⟨rfl, rfl, rfl, rfl⟩

/-- Concrete instance of `C10_src_address_adjust` at index 0, whose
source-increment flag is set. -/
theorem C10_src_address_adjust_witness :
    (chainDesc 0).srcAdjust = 2 * (chainDesc 0).btcnt :=
  (C10_src_address_adjust 0 (by omega)).1
    (by rw [chainDesc_eq_of_ne_last 0 (by omega) (by omega),
          (buildDescriptor_fields 0).2.1, core_zero])

/-! ### `begin()` scenarios -/

/-- Environment in which every external capability call succeeds. -/
def envAllOk : BeginEnv := ⟨true, true, true⟩

/-- State before any initialization: `descriptor == NULL`, no running
job, all-zero frame buffer. -/
def freshState : EngineState := ⟨false, false, fun _ => 0⟩

/-- State after one successful `begin()` on a fresh engine. -/
def afterFirstBegin : EngineState :=
  (ntsc40x24_begin freshState envAllOk).2

/-- `afterFirstBegin` after the user calls `setPixel(0, 0, 255)` at
rotation 0 (a white pixel at buffer offset `xOffset`). -/
def afterUserDraw : EngineState :=
  { afterFirstBegin with fb := drawPixel 0 afterFirstBegin.fb 0 0 255 }

/-- C7 counterexample: after a prior successful `begin()` (the engine
is initialized) and a user pixel write, a second `begin()` returns
true but is not a no-op re-entry: `Adafruit_NTSC40x24::begin` rebuilds
the descriptor table and calls `clear()`, so the white sample the user
wrote at offset `xOffset` is reset to black — the frame buffer
observably changes, contradicting the claim that every repeated call
after a prior success is a no-op re-entry. -/
theorem C7_counterexample :
    afterUserDraw.initialized = true ∧
    (ntsc40x24_begin afterUserDraw envAllOk).1 = true ∧
    afterUserDraw.fb xOffset = NW ∧
    (ntsc40x24_begin afterUserDraw envAllOk).2.fb xOffset = NK ∧
    (ntsc40x24_begin afterUserDraw envAllOk).2.fb xOffset ≠
      afterUserDraw.fb xOffset := by
  refine ⟨rfl, rfl, by decide, by decide, by decide⟩

/-- C7 amended: `begin()` returns false only when one of the external
resource/start calls fails — DMA channel allocation, the combined
buffer allocation, or the DMA transfer-job start; when the first-stage
allocations fail on an uninitialized engine, no job is started and the
engine state is unchanged (uninitialized and retryable); whenever the
capability calls succeed, `begin()` returns true, including on
repeated calls after a prior success — but a repeated call is not a
pure no-op: only the base-class stage short-circuits, and the subclass
rebuilds the chain, clears the frame buffer, and restarts the job. -/
theorem C7_begin_amended (s : EngineState) (env : BeginEnv) :
    (s.initialized = true → compositeVideo_begin s env = (true, s)) ∧
    ((ntsc40x24_begin s env).1 = false →
      env.dmaAllocOk = false ∨ env.memalignOk = false ∨
      env.startJobOk = false) ∧
    (s.initialized = false →
      env.dmaAllocOk = false ∨ env.memalignOk = false →
      ntsc40x24_begin s env = (false, s)) ∧
    (env.dmaAllocOk = true → env.memalignOk = true →
      env.startJobOk = true →
      (ntsc40x24_begin s env).1 = true ∧
      (ntsc40x24_begin s env).2.initialized = true ∧
      (ntsc40x24_begin s env).2.jobStarted = true ∧
      (ntsc40x24_begin s env).2.fb = clear s.fb) := by
  rcases s with ⟨init, job, fb⟩
  rcases env with ⟨da, ma, sj⟩
  cases init <;> cases da <;> cases ma <;> cases sj <;>
    simp [ntsc40x24_begin, compositeVideo_begin]

/-- Concrete instance of `C7_begin_amended`: with all capabilities
succeeding, a fresh `begin()` returns true, initializes, starts the
job and clears the buffer. -/
theorem C7_begin_amended_witness :
    (ntsc40x24_begin freshState envAllOk).1 = true ∧
    (ntsc40x24_begin freshState envAllOk).2.initialized = true ∧
    (ntsc40x24_begin freshState envAllOk).2.jobStarted = true ∧
    (ntsc40x24_begin freshState envAllOk).2.fb = clear freshState.fb :=
  (C7_begin_amended freshState envAllOk).2.2.2 rfl rfl rfl

end CompositeVideo
